/-
Verification of the gnn-tracking tutorials pipeline pattern:
graph-like records, the preprocessing stages defined in the notebooks
(PtCut, DemoGraphConstructionModel, DemoGravNet), and the spec-level
contracts of the loss combiner, checkpoint restore protocol and
training-loop driver exercised by the notebooks.
-/

import Mathlib

namespace GnnTutorials

/-! ## Graph-like records

A record bundles per-node feature vectors, a set of edges (ordered pairs
of node indices), per-node auxiliary labels (particle id, transverse
momentum `pt`), and an edge weighting.  Nodes are kept as an explicit
list of indices so that induced subgraphs retain their original ids. -/

structure Graph where
  nodes : List ℕ
  x : ℕ → ℕ → ℚ
  pt : ℕ → ℚ
  particle_id : ℕ → ℕ
  edges : List (ℕ × ℕ)
  ew : ℕ × ℕ → ℚ

/-- Induced subgraph on the nodes selected by `mask`, as performed by
`torch_geometric.data.Data.subgraph`: nodes failing the mask are dropped
and an edge survives iff both of its endpoints survive. -/
def Graph.subgraph (g : Graph) (mask : ℕ → Bool) : Graph :=
  { g with
    nodes := g.nodes.filter mask
    edges := g.edges.filter (fun e => mask e.1 && mask e.2) }

/-- `PtCut.__call__` from `src/unnamed/part_003`:
`mask = data.pt > 4; data = data.subgraph(mask)`. -/
def ptCut (g : Graph) : Graph :=
  g.subgraph (fun v => decide (4 < g.pt v))

/-! ## Scalar loss values

Loss components are floating-point scalars that may evaluate to
not-a-number (the `noise` component of the observed condensation run
does).  We model a scalar as either a rational number or `nan`, with
IEEE-style propagation: any arithmetic involving `nan` is `nan`. -/

inductive FVal where
  | num : ℚ → FVal
  | nan : FVal
deriving DecidableEq

def FVal.add : FVal → FVal → FVal
  | num a, num b => num (a + b)
  | _, _ => nan

def FVal.mul : FVal → FVal → FVal
  | num a, num b => num (a * b)
  | _, _ => nan

def FVal.isNaN : FVal → Bool
  | nan => true
  | _ => false

/-! ## Loss combiner

Modelled from the spec: `MLModule.get_losses` (and the analogous
TC/EC modules) of the external `gnn_tracking` library is only invoked by
the notebooks; its implementation is not part of this repository.
The spec: the loss function returns a mapping from component names to
raw scalars and a weighting mapping; the combiner computes
`name_weighted = weight[name] * raw[name]` for each component (a name
absent from the weighting mapping has weight 1) and
`total = sum of the weighted values`; it returns the total together with
a dictionary of the raw values, the weighted values and the total. -/

/-- Dictionary access: the value bound to key `k`, if any. -/
def findKey {α : Type} (s : List (String × α)) (k : String) : Option α :=
  match s with
  | [] => none
  | p :: t => if k = p.1 then some p.2 else findKey t k

def weightOf (weights : List (String × FVal)) (name : String) : FVal :=
  (findKey weights name).getD (FVal.num 1)

/-- The `name_weighted` entries of the combiner's result dictionary. -/
def weightedLosses (weights losses : List (String × FVal)) :
    List (String × FVal) :=
  losses.map (fun p => (p.1 ++ "_weighted", FVal.mul (weightOf weights p.1) p.2))

/-- The reported total: the sum of the weighted entries. -/
def lossTotal (weights losses : List (String × FVal)) : FVal :=
  (weightedLosses weights losses).foldr (fun p acc => FVal.add p.2 acc) (FVal.num 0)

/-- `get_losses`: total loss plus the logged metrics dictionary. -/
def getLosses (weights losses : List (String × FVal)) :
    FVal × List (String × FVal) :=
  (lossTotal weights losses,
   losses ++ weightedLosses weights losses ++ [("total", lossTotal weights losses)])

/-- Direct weighted sum over the components, as the spec states the total:
`total = Σ weight[name] * raw[name]`, defaulting to weight 1. -/
def specWeightedSum (weights losses : List (String × FVal)) : FVal :=
  losses.foldr (fun p acc => FVal.add (FVal.mul (weightOf weights p.1) p.2) acc)
    (FVal.num 0)

/-! ## Observed condensation training run

Recorded outputs of the one-shot object-condensation run in
`src/unnamed/part_003`: the epoch-0 training step reports
`attractive_train=9.35e+7` (93512936), `repulsive_train=0.000`,
`coward_train=0.0526`, `noise_train=nan`, with weighted values
`attractive_weighted_train=9.35e+7`, `repulsive_weighted_train=0.000`,
`coward_weighted_train=0.000`, `total_train=nan`, and the run finishes
with "`Trainer.fit` stopped: `max_epochs=1` reached". -/

def observedLosses : List (String × FVal) :=
  [("attractive", .num 93512936), ("repulsive", .num 0),
   ("coward", .num (526/10000)), ("noise", .nan)]

/-- Weighting of the observed run: `CondensationLossTiger(lw_repulsive=2.0)`
with the coward and noise weights at 0 (the recorded
`coward_weighted_train` is 0 although `coward_train` is 0.0526). -/
def observedWeights : List (String × FVal) :=
  [("repulsive", .num 2), ("coward", .num 0), ("noise", .num 0)]

/-- The observed run completed its epoch budget (it was not aborted):
the driver stopped with reason `max_epochs=1 reached`. -/
def observedFitCompleted : Bool := true

/-! ## Configuration snapshots

A snapshot (`hparams.yaml` / the in-checkpoint hyperparameter copy) is a
mapping from parameter names to either a primitive value or a nested
sub-object tagged with a reconstruction identifier (`class_path`) and its
own flat `init_args` mapping, exactly as printed in the notebooks. -/

inductive HPrim where
  | num : ℚ → HPrim
  | str : String → HPrim
  | null : HPrim
deriving DecidableEq

/-- A nested sub-object of a snapshot: reconstruction identifier plus
constructor arguments. -/
structure HObj where
  class_path : String
  init_args : List (String × HPrim)
deriving DecidableEq

inductive HVal where
  | prim : HPrim → HVal
  | obj : HObj → HVal
deriving DecidableEq

abbrev Snapshot := List (String × HVal)

/-- Replace the binding of `k` if present, otherwise append it
(Python `dict.__setitem__` on the hyperparameter dictionary). -/
def upsert (s : Snapshot) (k : String) (v : HVal) : Snapshot :=
  if (findKey s k).isSome then
    s.map (fun p => if p.1 = k then (k, v) else p)
  else
    s ++ [(k, v)]

/-- Modelled from the spec: `MLModule.load_from_checkpoint` applies the
extra keyword arguments as a shallow merge onto the top-level snapshot
only (Python `dict.update`): each override replaces the whole top-level
value of its key; nested sub-object configuration is never deep-merged. -/
def mergeOverrides (snap ov : Snapshot) : Snapshot :=
  ov.foldl (fun s p => upsert s p.1 p.2) snap

/-- Numeric constructor argument of a sub-object. -/
def argNum (o : HObj) (k : String) : Option ℚ :=
  match findKey o.init_args k with
  | some (.num q) => some q
  | _ => none

/-- The sub-object stored at top-level key `k` of a snapshot. -/
def getObj (s : Snapshot) (k : String) : Option HObj :=
  match findKey s k with
  | some (.obj o) => some o
  | _ => none

/-- Numeric parameter nested inside the sub-object at top-level key `k`. -/
def nestedNum (s : Snapshot) (k a : String) : Option ℚ :=
  match getObj s k with
  | some o => argNum o a
  | none => none

/-! ## Checkpoint restore protocol

Modelled from the spec: restoring instantiates the module from the merged
snapshot and then loads the persisted parameter tensors into it; it fails
with `RestoreError` when a reconstruction identifier cannot be resolved
and with `ConfigMismatch` when the restored module's parameter shapes
disagree with the persisted weight tensors. -/

inductive RestoreErr where
  | restoreError
  | configMismatch
deriving DecidableEq

/-- Reconstruction identifiers the notebooks resolve (the registry of
known stage-module constructors). -/
def knownClasses : List String :=
  ["gnn_tracking.models.graph_construction.GraphConstructionFCNN",
   "gnn_tracking.models.edge_classifier.ECForGraphTCN",
   "gnn_tracking.metrics.losses.GraphConstructionHingeEmbeddingLoss",
   "gnn_tracking.metrics.losses.metric_learning.GraphConstructionHingeEmbeddingLoss"]

def qToNat (q : ℚ) : ℕ := q.num.toNat

/-- Parameter shapes of a fully-connected stage module with the layer
layout of `DemoGraphConstructionModel` / `GraphConstructionFCNN`:
`Linear(in_dim, hidden)`, `depth - 2` times `Linear(hidden, hidden)`,
`Linear(hidden, out_dim)`; each linear layer has a weight of shape
`(out, in)` and a bias of shape `(out, 0)`. -/
def fcnnShapes (i h o : ℚ) (depth : ℕ) : List (ℚ × ℚ) :=
  ([(h, i), (h, 0)] : List (ℚ × ℚ))
    ++ (List.replicate (depth - 2) [(h, h), (h, 0)]).flatten
    ++ [(o, h), (o, 0)]

/-- Parameter shapes the model sub-object of a snapshot would produce,
derived from its architecture-affecting arguments (`in_dim`,
`hidden_dim`, `out_dim`, `depth`); runtime-only arguments such as the
residual parameter do not enter. -/
def modelParamShapes (o : HObj) : Option (List (ℚ × ℚ)) :=
  match argNum o "in_dim", argNum o "hidden_dim",
        argNum o "out_dim", argNum o "depth" with
  | some i, some h, some od, some d => some (fcnnShapes i h od (qToNat d))
  | _, _, _, _ => none

/-- A persisted checkpoint: the configuration snapshot plus the shapes of
the persisted weight tensors (recorded at save time). -/
structure Checkpoint where
  snap : Snapshot
  savedShapes : List (ℚ × ℚ)

/-- Modelled from the spec: `restore(path, overrides)` — shallow-merge the
overrides onto the persisted snapshot, resolve the model's reconstruction
identifier, rebuild the module and check its parameter shapes against the
persisted weight tensors. -/
def restore (ckpt : Checkpoint) (ov : Snapshot) : Except RestoreErr Snapshot :=
  let merged := mergeOverrides ckpt.snap ov
  match getObj merged "model" with
  | none => .error .restoreError
  | some o =>
    if o.class_path ∈ knownClasses then
      match modelParamShapes o with
      | none => .error .restoreError
      | some shapes =>
          if shapes = ckpt.savedShapes then .ok merged
          else .error .configMismatch
    else .error .restoreError

/-! ## The persisted snapshot of the metric-learning run

Contents of `lightning_logs/version_0/hparams.yaml` as printed in
`src/unnamed/part_001`: the model sub-object (with the defaulted residual
parameter `beta: 0.4`), the top-level loss weight `lw_repulsive: 0.5`,
and the loss-function sub-object (with its defaulted arguments). -/

def ckptModelObj : HObj :=
  { class_path := "gnn_tracking.models.graph_construction.GraphConstructionFCNN",
    init_args := [("in_dim", .num 14), ("hidden_dim", .num 64),
                  ("out_dim", .num 8), ("depth", .num 5), ("beta", .num (2/5))] }

def ckptLossObj : HObj :=
  { class_path := "gnn_tracking.metrics.losses.GraphConstructionHingeEmbeddingLoss",
    init_args := [("r_emb", .num (1/500)), ("max_num_neighbors", .num 10),
                  ("attr_pt_thld", .num (9/10)), ("p_attr", .num 1),
                  ("p_rep", .num 1)] }

def version0Snapshot : Snapshot :=
  [("model", .obj ckptModelObj),
   ("lw_repulsive", .prim (.num (1/2))),
   ("loss_fct", .obj ckptLossObj)]

def version0Ckpt : Checkpoint :=
  { snap := version0Snapshot, savedShapes := fcnnShapes 14 64 8 5 }

/-- A fully-formed replacement loss-function instance with
`max_num_neighbors=5`, as passed in `src/unnamed/part_001`:
`loss_fct=GraphConstructionHingeEmbeddingLoss(max_num_neighbors=5)`. -/
def replacementLossObj : HObj :=
  { class_path := "gnn_tracking.metrics.losses.GraphConstructionHingeEmbeddingLoss",
    init_args := [("r_emb", .num (1/500)), ("max_num_neighbors", .num 5),
                  ("attr_pt_thld", .num (9/10)), ("p_attr", .num 1),
                  ("p_rep", .num 1)] }

/-- The model sub-object with only the runtime residual parameter changed
(`beta` 0.4 → 0.7); architecture-affecting arguments untouched. -/
def modelObjBeta07 : HObj :=
  { class_path := "gnn_tracking.models.graph_construction.GraphConstructionFCNN",
    init_args := [("in_dim", .num 14), ("hidden_dim", .num 64),
                  ("out_dim", .num 8), ("depth", .num 5), ("beta", .num (7/10))] }

/-- The model sub-object with the architecture-affecting `in_dim`
changed 14 → 13. -/
def modelObjIn13 : HObj :=
  { class_path := "gnn_tracking.models.graph_construction.GraphConstructionFCNN",
    init_args := [("in_dim", .num 13), ("hidden_dim", .num 64),
                  ("out_dim", .num 8), ("depth", .num 5), ("beta", .num (2/5))] }

/-- `save_hyperparameters()` capture for
`DemoGraphConstructionModel.__init__(self, in_dim, hidden_dim, out_dim,
depth=5)`: every constructor argument is recorded with its effective
value — a parameter not passed explicitly is recorded with its default
(`depth=5`). -/
def demoGCHparams (in_dim hidden_dim out_dim : ℚ) (depth : Option ℚ) :
    List (String × HPrim) :=
  [("in_dim", .num in_dim), ("hidden_dim", .num hidden_dim),
   ("out_dim", .num out_dim), ("depth", .num (depth.getD 5))]

/-! ## Tensors and the demo stage module

`DemoGraphConstructionModel` from `src/unnamed/part_001` and
`src/unnamed/part_002`: a stack of linear layers with ReLU activations,
`forward` returning the latent embedding under key `H`.  A linear layer
applied to an input whose feature dimensionality disagrees with the
layer's input dimensionality fails with `ShapeMismatch`. -/

structure Tensor where
  rows : ℕ
  cols : ℕ
  ent : ℕ → ℕ → ℚ

inductive TrainErr where
  | shapeMismatch
deriving DecidableEq

inductive Layer where
  | linear (inD outD : ℕ) (w : ℕ → ℕ → ℚ) (b : ℕ → ℚ)
  | relu

def applyLayer : Layer → Tensor → Except TrainErr Tensor
  | .linear inD outD w b, t =>
      if t.cols = inD then
        .ok ⟨t.rows, outD,
             fun r c => (∑ k ∈ Finset.range inD, w c k * t.ent r k) + b c⟩
      else .error .shapeMismatch
  | .relu, t => .ok { t with ent := fun i j => max (t.ent i j) 0 }

/-- The layer list built in `DemoGraphConstructionModel.__init__`:
`Linear(in_dim, hidden_dim)`, `ReLU`, then `depth - 2` times
`Linear(hidden_dim, hidden_dim)`, `ReLU`, then
`Linear(hidden_dim, out_dim)`.  The weight of the `i`-th linear layer is
`w i`, its bias `b i`. -/
def demoLayers (in_dim hidden_dim out_dim depth : ℕ)
    (w : ℕ → ℕ → ℕ → ℚ) (b : ℕ → ℕ → ℚ) : List Layer :=
  [.linear in_dim hidden_dim (w 0) (b 0), .relu]
    ++ ((List.range (depth - 2)).map
        (fun i => [Layer.linear hidden_dim hidden_dim (w (i + 1)) (b (i + 1)),
                   Layer.relu])).flatten
    ++ [.linear hidden_dim out_dim (w (depth - 1)) (b (depth - 1))]

/-- Sequential application of the layer stack (`nn.Sequential`):
the first failing layer aborts the forward pass. -/
def seqApply : List Layer → Tensor → Except TrainErr Tensor
  | [], t => .ok t
  | l :: ls, t =>
    match applyLayer l t with
    | .ok t' => seqApply ls t'
    | .error e => .error e

/-- `DemoGraphConstructionModel.forward`: `self._model(data.x)`, the
sequential application of the layers. -/
def demoForward (in_dim hidden_dim out_dim depth : ℕ)
    (w : ℕ → ℕ → ℕ → ℚ) (b : ℕ → ℕ → ℚ) (x : Tensor) :
    Except TrainErr Tensor :=
  seqApply (demoLayers in_dim hidden_dim out_dim depth w b) x

/-- Feature dimensionality after one layer, if its input dimensionality
matches. -/
def layerShape : Layer → ℕ → Option ℕ
  | .linear inD outD _ _, c => if c = inD then some outD else none
  | .relu, c => some c

/-- Feature dimensionality after a layer stack, if all dimensionalities
match. -/
def stackShape : List Layer → ℕ → Option ℕ
  | [], c => some c
  | l :: ls, c =>
    match layerShape l c with
    | some c' => stackShape ls c'
    | none => none

/-! ## The demo condensation model

`DemoGravNet.forward` from `src/unnamed/part_003`: the latent embedding
comes from the GravNet convolution stack and the condensation score from
a `Linear(in_dim, 1)` + `Sigmoid` head (external numeric collaborators,
kept abstract), after which the in-repository code clamps:
`eps = 1e-6; beta = beta.clamp(eps, 1 - eps)`. -/

def clampQ (lo hi x : ℚ) : ℚ := max lo (min hi x)

def gravnetEps : ℚ := 1/1000000

structure DemoGravNet where
  embedding : Tensor → Tensor
  betaHead : Tensor → ℕ → ℚ

/-- The clamped condensation score `B` of node `v` (entry of the `B`
tensor of the returned dictionary). -/
def DemoGravNet.forwardB (m : DemoGravNet) (x : Tensor) (v : ℕ) : ℚ :=
  clampQ gravnetEps (1 - gravnetEps) (m.betaHead (m.embedding x) v)

/-- The latent embedding `H` of the returned dictionary. -/
def DemoGravNet.forwardH (m : DemoGravNet) (x : Tensor) : Tensor :=
  m.embedding x

/-! ## The frozen preprocessing chain

Modelled from the spec: `MLGraphConstructionFromChkpt` restores a frozen
graph-construction stage and optionally a frozen edge-classification
stage (`src/notebooks/030_edge_classification.ipynb`,
`src/notebooks/040_three_shot_object_condensation.ipynb`); per the spec
the chain transforms a record by re-weighting its edges (construction
stage) and pruning the low-scoring ones (classification stage): edges are
only pruned or re-weighted, never invented. -/

def mlConstructionStage (score : ℕ × ℕ → ℚ) (g : Graph) : Graph :=
  { g with ew := score }

def ecClassificationStage (thld : ℚ) (g : Graph) : Graph :=
  { g with edges := g.edges.filter (fun e => decide (thld ≤ g.ew e)) }

/-- The two-stage frozen preprocessing chain: construction stage then
classification stage. -/
def preprocChain (score : ℕ × ℕ → ℚ) (thld : ℚ) (g : Graph) : Graph :=
  ecClassificationStage thld (mlConstructionStage score g)

/-! ## Training loop driver

Modelled from the spec: `Trainer.fit` — Initializing → Sanity-Checking
(a single validation pass before any training step) → Training-Epoch →
Validating → Checkpointing, looping over the epoch budget. -/

inductive DriverEv where
  | valPass
  | trainForward
  | optimUpdate
  | checkpointWrite
deriving DecidableEq

/-- One training epoch: the training steps (forward + optimizer update
each), then the validation pass, then the checkpoint write. -/
def epochTrace (steps : ℕ) : List DriverEv :=
  (List.replicate steps [DriverEv.trainForward, DriverEv.optimUpdate]).flatten
    ++ [.valPass, .checkpointWrite]

/-- The full event trace of `Trainer.fit`: the sanity-check validation
pass, then the epochs. -/
def fitTrace (epochs steps : ℕ) : List DriverEv :=
  DriverEv.valPass :: (List.replicate epochs (epochTrace steps)).flatten

/-- A small concrete 3-node record used to instantiate the graph-level
theorems: node 0 carries `pt = 5`, the others `pt = 1`. -/
def exampleGraph : Graph :=
  { nodes := [0, 1, 2]
    x := fun _ _ => 0
    pt := fun v => if v = 0 then 5 else 1
    particle_id := fun _ => 0
    edges := [(0, 1), (2, 2), (0, 0)]
    ew := fun _ => 0 }

/-! ## Helper lemmas -/

lemma findKey_append {α : Type} (s t : List (String × α)) (k : String) :
    findKey (s ++ t) k = ((findKey s k).or (findKey t k)) := by
  induction s with
  | nil => simp [findKey]
  | cons a s ih => by_cases h : k = a.1 <;> simp [findKey, h, ih]

lemma findKey_replaceMap_ne (s : Snapshot) (k k' : String) (v : HVal)
    (h : k' ≠ k) :
    findKey (s.map (fun p => if p.1 = k then (k, v) else p)) k'
      = findKey s k' := by
  induction s with
  | nil => simp [findKey]
  | cons a s ih =>
    by_cases ha : a.1 = k
    · simp [findKey, ha, h, ih]
    · by_cases hk : k' = a.1 <;> simp [findKey, ha, hk, ih]

lemma findKey_replaceMap_self (s : Snapshot) (k : String) (v : HVal)
    (h : (findKey s k).isSome) :
    findKey (s.map (fun p => if p.1 = k then (k, v) else p)) k = some v := by
  induction s with
  | nil => simp [findKey] at h
  | cons a s ih =>
    by_cases ha : a.1 = k
    · simp [findKey, ha]
    · have hne : k ≠ a.1 := fun hc => ha hc.symm
      have h' : (findKey s k).isSome := by
        simpa [findKey, hne] using h
      simp [findKey, ha, hne, ih h']

lemma findKey_upsert (s : Snapshot) (k : String) (v : HVal) (k' : String) :
    findKey (upsert s k v) k' = if k' = k then some v else findKey s k' := by
  unfold upsert
  by_cases hsome : (findKey s k).isSome
  · rw [if_pos hsome]
    by_cases hk : k' = k
    · subst hk; rw [if_pos rfl]; exact findKey_replaceMap_self s k' v hsome
    · rw [if_neg hk]; exact findKey_replaceMap_ne s k k' v hk
  · rw [if_neg hsome, findKey_append]
    have hnone : findKey s k = none := by
      cases hfk : findKey s k
      · rfl
      · exact absurd (by simp [hfk]) hsome
    by_cases hk : k' = k
    · subst hk; simp [hnone, findKey]
    · cases hfk : findKey s k' <;> simp [findKey, hk, hfk]

lemma findKey_merge (ov snap : Snapshot) (k : String) :
    findKey (mergeOverrides snap ov) k
      = ((findKey ov.reverse k).or (findKey snap k)) := by
  induction ov generalizing snap with
  | nil => simp [mergeOverrides, findKey]
  | cons a ov ih =>
    show findKey (mergeOverrides (upsert snap a.1 a.2) ov) k = _
    rw [ih, findKey_upsert, List.reverse_cons, findKey_append]
    by_cases hk : k = a.1
    · cases hrev : findKey ov.reverse k <;> simp [findKey, hk, hrev]
    · cases hrev : findKey ov.reverse k <;> simp [findKey, hk, hrev]

lemma findKey_eq_none_of_forall_ne {α : Type} (s : List (String × α))
    (k : String) (h : ∀ p ∈ s, p.1 ≠ k) : findKey s k = none := by
  induction s with
  | nil => simp [findKey]
  | cons a s ih =>
    have ha : ¬ k = a.1 := fun hc => h a (by simp) hc.symm
    simp [findKey, ha, ih (fun p hp => h p (by simp [hp]))]

lemma fval_sum_nan (l : List (String × FVal)) (name : String)
    (h : (name, FVal.nan) ∈ l) :
    l.foldr (fun p acc => FVal.add p.2 acc) (FVal.num 0) = FVal.nan := by
  induction l with
  | nil => simp at h
  | cons a l ih =>
    rcases List.mem_cons.mp h with h' | h'
    · rw [← h']
      simp [FVal.add]
    · simp only [List.foldr_cons, ih h']
      cases a.2 <;> simp [FVal.add]

lemma lossTotal_eq_specWeightedSum (weights losses : List (String × FVal)) :
    lossTotal weights losses = specWeightedSum weights losses := by
  unfold lossTotal weightedLosses specWeightedSum
  induction losses with
  | nil => rfl
  | cons p l ih =>
    simp only [List.map_cons, List.foldr_cons]
    rw [ih]

lemma fval_mul_nan (v : FVal) : FVal.mul v FVal.nan = FVal.nan := by
  cases v <;> rfl

lemma seqApply_shape (ls : List Layer) (t : Tensor) (c' : ℕ)
    (h : stackShape ls t.cols = some c') :
    ∃ t', seqApply ls t = .ok t' ∧ t'.rows = t.rows ∧ t'.cols = c' := by
  induction ls generalizing t with
  | nil =>
    refine ⟨t, rfl, rfl, ?_⟩
    simpa [stackShape] using h
  | cons l ls ih =>
    cases l with
    | linear inD outD w b =>
      by_cases hcols : t.cols = inD
      · have h' : stackShape ls outD = some c' := by
          simpa [stackShape, layerShape, hcols] using h
        obtain ⟨t', ht', hr', hc'⟩ :=
          ih (⟨t.rows, outD,
            fun r c => (∑ k ∈ Finset.range inD, w c k * t.ent r k) + b c⟩)
            (by simpa using h')
        refine ⟨t', ?_, hr', hc'⟩
        simpa [seqApply, applyLayer, hcols] using ht'
      · simp [stackShape, layerShape, hcols] at h
    | relu =>
      have h' : stackShape ls t.cols = some c' := by
        simpa [stackShape, layerShape] using h
      obtain ⟨t', ht', hr', hc'⟩ :=
        ih ({ t with ent := fun i j => max (t.ent i j) 0 }) (by simpa using h')
      refine ⟨t', ?_, hr', hc'⟩
      simpa [seqApply, applyLayer] using ht'

lemma seqApply_shape_err (ls : List Layer) (t : Tensor)
    (h : stackShape ls t.cols = none) :
    seqApply ls t = .error .shapeMismatch := by
  induction ls generalizing t with
  | nil => simp [stackShape] at h
  | cons l ls ih =>
    cases l with
    | linear inD outD w b =>
      by_cases hcols : t.cols = inD
      · have h' : stackShape ls outD = none := by
          simpa [stackShape, layerShape, hcols] using h
        have := ih (⟨t.rows, outD,
          fun r c => (∑ k ∈ Finset.range inD, w c k * t.ent r k) + b c⟩)
          (by simpa using h')
        simpa [seqApply, applyLayer, hcols] using this
      · simp [seqApply, applyLayer, hcols]
    | relu =>
      have h' : stackShape ls t.cols = none := by
        simpa [stackShape, layerShape] using h
      have := ih ({ t with ent := fun i j => max (t.ent i j) 0 })
        (by simpa using h')
      simpa [seqApply, applyLayer] using this

/-! ## Claim theorems -/

/-- C10: `PtCut` returns the subgraph induced by the nodes with `pt > 4`:
every node of the returned record has `pt` strictly greater than 4, the
returned node set is a subset of the input's nodes, and the returned edge
set contains exactly the input edges whose both endpoints survive the
cut (no new nodes or edges are created). -/
theorem ptCut_induced_subgraph (g : Graph) :
    (∀ v ∈ (ptCut g).nodes, 4 < g.pt v)
    ∧ (ptCut g).nodes ⊆ g.nodes
    ∧ (∀ e, e ∈ (ptCut g).edges ↔
        e ∈ g.edges ∧ 4 < g.pt e.1 ∧ 4 < g.pt e.2) := by
  refine ⟨?_, ?_, ?_⟩
  · intro v hv
    have := List.of_mem_filter hv
    simpa using this
  · exact fun v hv => List.mem_of_mem_filter hv
  · intro e
    simp [ptCut, Graph.subgraph, List.mem_filter, and_assoc]

/-- C3: the two-stage frozen preprocessing chain (construction stage then
classification stage) only prunes or re-weights edges, never invents
them: the node list is unchanged, the transformed edge set is a subset of
the input's, and the edge count is at most the original. -/
theorem preprocChain_prunes_only (score : ℕ × ℕ → ℚ) (thld : ℚ) (g : Graph) :
    (preprocChain score thld g).nodes = g.nodes
    ∧ (preprocChain score thld g).edges ⊆ g.edges
    ∧ (preprocChain score thld g).edges.length ≤ g.edges.length :=
  ⟨rfl, fun _ he => List.mem_of_mem_filter he, List.length_filter_le _ _⟩

/-- C9: every condensation score returned by `DemoGravNet.forward` lies
in the closed interval [1e-6, 1 - 1e-6]; in particular no returned `B`
entry is ever exactly 0 or exactly 1. -/
theorem demoGravNet_beta_clamped (m : DemoGravNet) (x : Tensor) (v : ℕ) :
    gravnetEps ≤ m.forwardB x v ∧ m.forwardB x v ≤ 1 - gravnetEps
    ∧ m.forwardB x v ≠ 0 ∧ m.forwardB x v ≠ 1 := by
  have heps : (0 : ℚ) < gravnetEps := by norm_num [gravnetEps]
  have hlo : gravnetEps ≤ m.forwardB x v := le_max_left _ _
  have hhi : m.forwardB x v ≤ 1 - gravnetEps := by
    unfold DemoGravNet.forwardB clampQ
    apply max_le
    · norm_num [gravnetEps]
    · exact min_le_left _ _
  refine ⟨hlo, hhi, ?_, ?_⟩
  · intro h0
    rw [h0] at hlo
    exact absurd hlo (not_le.mpr heps)
  · intro h1
    rw [h1] at hhi
    have : (1 : ℚ) ≤ 1 - gravnetEps := hhi
    nlinarith

/-- C8: the driver executes a validation pass (the sanity check) before
any training step: every optimizer update in the fit trace is preceded by
an earlier validation pass. -/
theorem sanity_check_before_first_update (epochs steps i : ℕ)
    (h : (fitTrace epochs steps).get? i = some DriverEv.optimUpdate) :
    ∃ j, j < i ∧ (fitTrace epochs steps).get? j = some DriverEv.valPass := by
  refine ⟨0, ?_, rfl⟩
  cases i with
  | zero => simp [fitTrace] at h
  | succ n => exact Nat.succ_pos n

/-- C8 witness: the first optimizer update of a one-epoch, two-step run
sits at index 2 and a validation pass precedes it. -/
theorem sanity_check_before_first_update_witness :
    ∃ j, j < 2 ∧ (fitTrace 1 2).get? j = some DriverEv.valPass :=
  sanity_check_before_first_update 1 2 2 (by rfl)

/-- C1: the combiner's reported total equals the sum over named
components of `weight[name] * raw[name]`, where a name absent from the
weighting mapping gets weight 1; with components {attractive, repulsive}
and weighting {repulsive: 0.5} the total is `attractive + 0.5*repulsive`,
and for an empty component mapping the total is 0. -/
theorem get_losses_total (weights losses : List (String × FVal)) (a r : ℚ) :
    (getLosses weights losses).1 = specWeightedSum weights losses
    ∧ (getLosses [("repulsive", FVal.num (1/2))]
        [("attractive", FVal.num a), ("repulsive", FVal.num r)]).1
      = FVal.num (a + r / 2)
    ∧ (getLosses weights []).1 = FVal.num 0 := by
  refine ⟨lossTotal_eq_specWeightedSum weights losses, ?_, rfl⟩
  show lossTotal _ _ = _
  have hne : ¬ ("attractive" : String) = "repulsive" := by decide
  norm_num [lossTotal, weightedLosses, weightOf, findKey, FVal.mul, FVal.add, hne]
  ring

/-- C2: checkpoint restore applies overrides as a shallow merge onto the
top-level snapshot only: the merged value at every key comes wholly from
the overrides (their latest binding) or wholly from the snapshot — never
mixed; a top-level key such as `lw_repulsive` is replaced by a primitive
override; the nested `max_num_neighbors` of the loss function is
unchanged by every override mapping not binding `loss_fct`, and changing
it requires a fully-formed replacement sub-object, which then replaces
the sub-object wholesale. -/
theorem load_from_checkpoint_shallow_merge :
    (∀ snap ov k, findKey (mergeOverrides snap ov) k
        = ((findKey ov.reverse k).or (findKey snap k)))
    ∧ findKey (mergeOverrides version0Snapshot
        [("lw_repulsive", .prim (.num (1/10)))]) "lw_repulsive"
      = some (.prim (.num (1/10)))
    ∧ (∀ ov, (∀ p ∈ ov, p.1 ≠ "loss_fct") →
        nestedNum (mergeOverrides version0Snapshot ov)
          "loss_fct" "max_num_neighbors" = some 10)
    ∧ nestedNum (mergeOverrides version0Snapshot
        [("loss_fct", .obj replacementLossObj)]) "loss_fct" "max_num_neighbors"
      = some 5
    ∧ findKey (mergeOverrides version0Snapshot
        [("loss_fct", .obj replacementLossObj)]) "loss_fct"
      = some (.obj replacementLossObj) := by
  refine ⟨fun snap ov k => findKey_merge ov snap k, rfl, ?_, rfl, rfl⟩
  intro ov hov
  have hobj : getObj (mergeOverrides version0Snapshot ov) "loss_fct"
      = getObj version0Snapshot "loss_fct" := by
    unfold getObj
    rw [findKey_merge,
      findKey_eq_none_of_forall_ne _ _
        (fun p hp => hov p (List.mem_reverse.mp hp)),
      Option.none_or]
  unfold nestedNum
  rw [hobj]
  rfl

/-- C2 witness: an override of the top-level loss weight alone leaves the
nested `max_num_neighbors` of the loss function at its persisted value. -/
theorem load_from_checkpoint_shallow_merge_witness :
    nestedNum (mergeOverrides version0Snapshot
        [("lw_repulsive", .prim (.num (1/10)))])
      "loss_fct" "max_num_neighbors" = some 10 :=
  load_from_checkpoint_shallow_merge.2.2.1
    [("lw_repulsive", .prim (.num (1/10)))] (by decide)

/-- C5: restoring from the persisted checkpoint rejects overrides that
change architecture-affecting fields (replacing the model sub-object with
one whose `in_dim` is 13 fails with ConfigMismatch because the parameter
shapes disagree with the persisted weight tensors), while runtime-only
overrides — the top-level loss weight, or a model sub-object differing
only in the residual parameter `beta` — are accepted. -/
theorem restore_rejects_architecture_overrides :
    restore version0Ckpt [("lw_repulsive", .prim (.num (1/10)))]
      = .ok (mergeOverrides version0Snapshot
          [("lw_repulsive", .prim (.num (1/10)))])
    ∧ restore version0Ckpt [("model", .obj modelObjBeta07)]
      = .ok (mergeOverrides version0Snapshot [("model", .obj modelObjBeta07)])
    ∧ restore version0Ckpt [("model", .obj modelObjIn13)]
      = .error .configMismatch :=
  ⟨rfl, rfl, rfl⟩

/-- C6: restoring the persisted snapshot with an empty overrides mapping
reproduces a snapshot deep-equal to the original, and the snapshot
records every constructor parameter including ones only set by default
(`depth=5` is captured although never passed explicitly). -/
theorem snapshot_round_trip (snap : Snapshot) :
    mergeOverrides snap [] = snap
    ∧ restore version0Ckpt [] = .ok version0Snapshot
    ∧ findKey (demoGCHparams 14 64 8 none) "depth" = some (.num 5) :=
  ⟨rfl, rfl, rfl⟩

/-- C7: the demo stage module configured with `in_dim=14, out_dim=8`
(hidden_dim 64, default depth 5) maps a record with 10 nodes and
14-dimensional features to an embedding of shape (10, 8); on a record
whose features are 13-dimensional it fails with ShapeMismatch instead of
returning an output. -/
theorem demo_forward_shapes (w : ℕ → ℕ → ℕ → ℚ) (b : ℕ → ℕ → ℚ)
    (x x' : Tensor) (hr : x.rows = 10) (hc : x.cols = 14)
    (hc' : x'.cols = 13) :
    (∃ t, demoForward 14 64 8 5 w b x = .ok t ∧ t.rows = 10 ∧ t.cols = 8)
    ∧ demoForward 14 64 8 5 w b x' = .error .shapeMismatch := by
  constructor
  · obtain ⟨t, ht, hrow, hcol⟩ :=
      seqApply_shape (demoLayers 14 64 8 5 w b) x 8 (by rw [hc]; rfl)
    exact ⟨t, ht, by rw [hrow, hr], hcol⟩
  · exact seqApply_shape_err (demoLayers 14 64 8 5 w b) x' (by rw [hc']; rfl)

/-- C7 witness: the scenario at concrete zero weights and a concrete
10 × 14 record, and the mismatch at a concrete 10 × 13 record. -/
theorem demo_forward_shapes_witness :
    (∃ t, demoForward 14 64 8 5 (fun _ _ _ => 0) (fun _ _ => 0)
        ⟨10, 14, fun _ _ => 0⟩ = .ok t ∧ t.rows = 10 ∧ t.cols = 8)
    ∧ demoForward 14 64 8 5 (fun _ _ _ => 0) (fun _ _ => 0)
        ⟨10, 13, fun _ _ => 0⟩ = .error .shapeMismatch :=
  demo_forward_shapes (fun _ _ _ => 0) (fun _ _ => 0)
    ⟨10, 14, fun _ _ => 0⟩ ⟨10, 13, fun _ _ => 0⟩ rfl rfl rfl

/-- C4 counterexample: the claim says a training step with a NaN total
loss is fatal, but in the recorded one-shot condensation run the `noise`
component is NaN, the combined total is NaN, and the run nevertheless
completed its epoch budget (`max_epochs=1` reached). -/
theorem nan_total_not_fatal_counterexample :
    ¬ ((lossTotal observedWeights observedLosses).isNaN = true →
        observedFitCompleted = false) := by
  intro h
  exact absurd (h rfl) (by simp [observedFitCompleted])

/-- C4 (amended): a NaN loss component is surfaced as a visible NaN in
the combiner's logged metrics — its weighted entry is NaN and the
reported total is NaN (propagated, never zeroed or masked) — and
training does not abort even then: the observed run with a NaN total
completed its epoch budget. -/
theorem nan_surfaced_not_fatal (weights losses : List (String × FVal))
    (name : String) (h : (name, FVal.nan) ∈ losses) :
    (name ++ "_weighted", FVal.nan) ∈ (getLosses weights losses).2
    ∧ (getLosses weights losses).1 = FVal.nan
    ∧ observedFitCompleted = true := by
  have hmem : (name ++ "_weighted", FVal.nan) ∈ weightedLosses weights losses := by
    have hmap := List.mem_map_of_mem
      (fun p : String × FVal =>
        (p.1 ++ "_weighted", FVal.mul (weightOf weights p.1) p.2)) h
    simpa [weightedLosses, fval_mul_nan] using hmap
  refine ⟨?_, ?_, rfl⟩
  · simp [getLosses, hmem]
  · show lossTotal weights losses = FVal.nan
    exact fval_sum_nan _ _ hmem

/-- C4 witness: the amended statement at the recorded run — the `noise`
component is NaN, its weighted metric and the total are NaN, and the run
completed. -/
theorem nan_surfaced_not_fatal_witness :
    ("noise" ++ "_weighted", FVal.nan) ∈ (getLosses observedWeights observedLosses).2
    ∧ (getLosses observedWeights observedLosses).1 = FVal.nan
    ∧ observedFitCompleted = true :=
  nan_surfaced_not_fatal observedWeights observedLosses "noise"
    (by simp [observedLosses])

/-- C10 witness: the characterization at the concrete 3-node record and
the concrete edge (0, 0), whose both endpoints survive the cut. -/
theorem ptCut_induced_subgraph_witness :
    ((0, 0) ∈ (ptCut exampleGraph).edges ↔
      (0, 0) ∈ exampleGraph.edges ∧ 4 < exampleGraph.pt 0
        ∧ 4 < exampleGraph.pt 0)
    ∧ (0, 0) ∈ (ptCut exampleGraph).edges :=
  ⟨(ptCut_induced_subgraph exampleGraph).2.2 (0, 0), by decide⟩

/-- C3 witness: the chain instantiated at the concrete record with a
score keeping only the edge (0, 1). -/
theorem preprocChain_prunes_only_witness :
    (preprocChain (fun e => if e = (0, 1) then 1 else 0) (1/2)
        exampleGraph).nodes = exampleGraph.nodes
    ∧ (preprocChain (fun e => if e = (0, 1) then 1 else 0) (1/2)
        exampleGraph).edges ⊆ exampleGraph.edges
    ∧ (preprocChain (fun e => if e = (0, 1) then 1 else 0) (1/2)
        exampleGraph).edges.length ≤ exampleGraph.edges.length :=
  preprocChain_prunes_only (fun e => if e = (0, 1) then 1 else 0) (1/2)
    exampleGraph

/-- C9 witness: the clamp bounds at a concrete model whose beta head
outputs the out-of-range value 2. -/
theorem demoGravNet_beta_clamped_witness :
    gravnetEps ≤ DemoGravNet.forwardB ⟨fun t => t, fun _ _ => 2⟩
        ⟨1, 1, fun _ _ => 0⟩ 0
    ∧ DemoGravNet.forwardB ⟨fun t => t, fun _ _ => 2⟩
        ⟨1, 1, fun _ _ => 0⟩ 0 ≤ 1 - gravnetEps
    ∧ DemoGravNet.forwardB ⟨fun t => t, fun _ _ => 2⟩
        ⟨1, 1, fun _ _ => 0⟩ 0 ≠ 0
    ∧ DemoGravNet.forwardB ⟨fun t => t, fun _ _ => 2⟩
        ⟨1, 1, fun _ _ => 0⟩ 0 ≠ 1 :=
  demoGravNet_beta_clamped ⟨fun t => t, fun _ _ => 2⟩ ⟨1, 1, fun _ _ => 0⟩ 0

/-- C1 witness: the combiner instantiated at the two-component mapping
with weighting {repulsive: 0.5} and at the empty component mapping. -/
theorem get_losses_total_witness :
    (getLosses observedWeights observedLosses).1
      = specWeightedSum observedWeights observedLosses
    ∧ (getLosses [("repulsive", FVal.num (1/2))]
        [("attractive", FVal.num 3), ("repulsive", FVal.num 5)]).1
      = FVal.num (3 + 5 / 2)
    ∧ (getLosses observedWeights []).1 = FVal.num 0 :=
  get_losses_total observedWeights observedLosses 3 5

/-- C6 witness: the round trip at the persisted snapshot of the
metric-learning run. -/
theorem snapshot_round_trip_witness :
    mergeOverrides version0Snapshot [] = version0Snapshot
    ∧ restore version0Ckpt [] = .ok version0Snapshot
    ∧ findKey (demoGCHparams 14 64 8 none) "depth" = some (.num 5) :=
  snapshot_round_trip version0Snapshot

end GnnTutorials
